import Mathlib

/-! Shallow embedding of the GLiNER repository sources gliner/model.py and
gliner/data_processing/collator.py. Torch tensors of rank 0 to 4 are
modelled by nested lists of integers, Python exceptions by Except String,
and Python dictionaries by association lists or by functions from keys to
optional values. Definitions follow the source line by line; the doc
comment of each definition records the lines it embeds. -/

namespace GLiNERSpec

/-- Python list indexing with a natural index: xs[i] raises IndexError when
i is at least the length of xs. -/
def pyListGet (xs : List Nat) (i : Nat) : Except String Nat :=
  match xs[i]? with
  | some v => Except.ok v
  | none => Except.error "IndexError: list index out of range"

/-- Python string slicing text[a:b] for natural bounds: the characters at
positions a up to b - 1, clamped to the length of the text. -/
def pySlice (text : List Char) (a b : Nat) : List Char :=
  (text.drop a).take (b - a)

/-- One reconstructed entity dictionary, model.py lines 147 to 153. The
score type is a parameter because the score is passed through unchanged. -/
structure Entity (σ : Type) where
  start : Nat
  «end» : Nat
  text : List Char
  label : String
  score : σ
deriving DecidableEq

variable {σ : Type}

/-- The body of the per hypothesis step in batch_predict_entities,
model.py lines 144 to 153: look up the start and end character offsets of
the token indices, then build the entity, slicing the original text. -/
def buildEntity (text : List Char) (sMap eMap : List Nat)
    (h : Nat × Nat × String × σ) : Except String (Entity σ) :=
  match pyListGet sMap h.1 with
  | Except.error e => Except.error e
  | Except.ok s =>
    match pyListGet eMap h.2.1 with
    | Except.error e => Except.error e
    | Except.ok en =>
      Except.ok { start := s, «end» := en, text := pySlice text s en,
                  label := h.2.2.1, score := h.2.2.2 }

/-- The entity loop for one text in batch_predict_entities, model.py lines
143 to 154: entities are appended in order and a raised IndexError aborts
the whole call. The decoded hypotheses (start token index, end token index,
label, score) are the output of the decoding collaborator, whose token
indices are natural numbers. -/
def entityLoop (text : List Char) (sMap eMap : List Nat) :
    List (Nat × Nat × String × σ) → Except String (List (Entity σ))
  | [] => Except.ok []
  | h :: t =>
    match buildEntity text sMap eMap h with
    | Except.error e => Except.error e
    | Except.ok ent =>
      match entityLoop text sMap eMap t with
      | Except.error e => Except.error e
      | Except.ok rest => Except.ok (ent :: rest)

/-- A value of the model input dictionary in prepare_model_inputs: Python
None, a torch tensor carrying the device it lives on, or some other
object. -/
inductive MIVal where
  | pynone
  | tensor (device : String) (tid : Nat)
  | other (oid : Nat)
deriving DecidableEq

/-- model.py lines 55 to 58: the onnx_model flag set in GLiNER.__init__
from the isinstance test against BaseORTModel. Both branches of the test
assign True. -/
def init_onnx_model (isORTModel : Bool) : Bool :=
  if isORTModel then true else true

/-- model.py lines 107 to 111: the device moving step at the end of
prepare_model_inputs. When the onnx_model flag is false, every tensor
valued entry of the model input dictionary is moved to the encoder device;
None and other non tensor entries are untouched. When the flag is true the
dictionary is returned as it is. -/
def prepare_device_move (onnx_model : Bool) (device : String)
    (model_input : List (String × MIVal)) : List (String × MIVal) :=
  if onnx_model then model_input
  else model_input.map (fun kv =>
    match kv.2 with
    | MIVal.tensor _ tid => (kv.1, MIVal.tensor device tid)
    | v => (kv.1, v))

/-- A value stored in the raw batch or collated dictionaries handled by
DataCollator: Python None, a tensor, or some other object. -/
inductive PyV where
  | pynone
  | pyten (tid : Nat)
  | pyother (oid : Nat)
deriving DecidableEq

/-- collator.py lines 14 to 21: DataCollator.__call__. The strategy
methods collate_raw_batch and collate_fn are parameters; dictionaries are
functions from keys to optional values, where none means the key is
absent. The update at lines 18 to 20 writes the three keys span_idx,
span_mask and text_lengths unconditionally, overwriting any value the
collated output already had for them; span_idx and span_mask receive the
raw batch value when the key is present and Python None otherwise, and
reading seq_length raises KeyError when it is absent. -/
def dataCollator_call {α : Type} (collate_raw_batch : List α → String → Option PyV)
    (collate_fn : (String → Option PyV) → String → Option PyV)
    (input_x : List α) : Except String (String → Option PyV) :=
  let raw := collate_raw_batch input_x
  let mi := collate_fn raw
  match raw "seq_length" with
  | none => Except.error "KeyError: seq_length"
  | some tl =>
    Except.ok (fun k =>
      if k = "text_lengths" then some tl
      else if k = "span_idx" then some ((raw "span_idx").getD PyV.pynone)
      else if k = "span_mask" then some ((raw "span_mask").getD PyV.pynone)
      else mi k)

/-- A torch tensor of rank 0 to 4 with integer entries, as nested lists. -/
inductive PTensor where
  | r0 (x : Int)
  | r1 (xs : List Int)
  | r2 (xs : List (List Int))
  | r3 (xs : List (List (List Int)))
  | r4 (xs : List (List (List (List Int))))
deriving DecidableEq

/-- A value stored in a feature dictionary handed to
DataCollatorWithPadding: a tensor, a Python list of numbers, or a plain
number. -/
inductive FVal where
  | tens (t : PTensor)
  | lst (xs : List Int)
  | num (x : Int)
deriving DecidableEq

/-- tensor.dim(). -/
def PTensor.dim : PTensor → Nat
  | .r0 _ => 0
  | .r1 _ => 1
  | .r2 _ => 2
  | .r3 _ => 3
  | .r4 _ => 4

/-- tensor.shape as a list of dimension sizes. Torch tensors are
rectangular, so the length of the first slice determines each inner
size. -/
def PTensor.shape : PTensor → List Nat
  | .r0 _ => []
  | .r1 xs => [xs.length]
  | .r2 xs => [xs.length, (xs.headD []).length]
  | .r3 xs => [xs.length, (xs.headD []).length, ((xs.headD []).headD []).length]
  | .r4 xs => [xs.length, (xs.headD []).length, ((xs.headD []).headD []).length,
      (((xs.headD []).headD []).headD []).length]

/-- tensor.squeeze(0): drop the leading dimension when its size is one,
otherwise return the tensor unchanged. -/
def squeeze0 : PTensor → PTensor
  | .r0 x => .r0 x
  | .r1 xs => if xs.length = 1 then .r0 (xs.headD 0) else .r1 xs
  | .r2 xs => if xs.length = 1 then .r1 (xs.headD []) else .r2 xs
  | .r3 xs => if xs.length = 1 then .r2 (xs.headD []) else .r3 xs
  | .r4 xs => if xs.length = 1 then .r3 (xs.headD []) else .r4 xs

/-- item[key].squeeze(0) on one feature value, collator.py line 42. Python
lists and plain numbers have no squeeze attribute, so on them the
comprehension raises AttributeError before any branch of the dispatch at
lines 44 to 65 can run; consequently every element of key_data that the
dispatch sees is a tensor, and the list and number branches at lines 54 to
63 (which would also raise, reading the never assigned attribute
self.device) are unreachable. -/
def squeezeVal : FVal → Except String PTensor
  | .tens t => Except.ok (squeeze0 t)
  | .lst _ => Except.error "AttributeError: list object has no attribute squeeze"
  | .num _ => Except.error "AttributeError: number object has no attribute squeeze"

/-- Python dictionary read item[key], raising KeyError when the key is
absent. -/
def dictGet (item : List (String × FVal)) (key : String) : Except String FVal :=
  match item with
  | [] => Except.error "KeyError"
  | (k, v) :: t => if key = k then Except.ok v else dictGet t key

/-- Sequential effectful map: a Python for loop that appends results in
order and lets the first raised exception abort the call. -/
def seqMapE {α β : Type} (f : α → Except String β) : List α → Except String (List β)
  | [] => Except.ok []
  | a :: t =>
    match f a with
    | Except.error e => Except.error e
    | Except.ok b =>
      match seqMapE f t with
      | Except.error e => Except.error e
      | Except.ok bs => Except.ok (b :: bs)

/-- Maximum of a list of sizes; the callers only apply it to nonempty
lists, matching Python max over a nonempty sequence. -/
def listMax (ns : List Nat) : Nat := ns.foldr max 0

/-- Extraction of the flat rows for pad_sequence: a tensor of another rank
reaching it through a mixed batch raises, as torch does on mismatched
trailing dimensions. -/
def padSeqStep (t : PTensor) : Except String (List Int) :=
  match t with
  | PTensor.r1 xs => Except.ok xs
  | _ => Except.error "RuntimeError: pad_sequence size mismatch"

/-- torch.nn.utils.rnn.pad_sequence with batch_first=True on flat
sequences, collator.py line 47: right pad each row with zeros to the
longest row and stack along a new leading batch axis. -/
def padSeq (key_data : List PTensor) : Except String PTensor :=
  match seqMapE padSeqStep key_data with
  | Except.error e => Except.error e
  | Except.ok rows =>
    Except.ok (.r2 (rows.map (fun r =>
      r ++ List.replicate (listMax (rows.map List.length) - r.length) 0)))

/-- tensor.shape[i]: reading a shape entry beyond the rank raises
IndexError. -/
def shapeEntry (i : Nat) (t : PTensor) : Except String Nat :=
  match t.shape.get? i with
  | some n => Except.ok n
  | none => Except.error "IndexError: tuple index out of range"

/-- torch.nn.functional.pad on a rank 2 tensor with pad tuple
(0, colPad, 0, rowPad): extend every row on the right by colPad zeros, then
append rowPad zero rows; cols is the second shape entry of the tensor. -/
def fPad2d (xs : List (List Int)) (colPad rowPad cols : Nat) : List (List Int) :=
  xs.map (fun r => r ++ List.replicate colPad 0) ++
    List.replicate rowPad (List.replicate (cols + colPad) 0)

/-- The loop body of pad_2d_tensor, collator.py lines 85 to 92: unpack
rows, cols = tensor.shape (an error unless the rank is exactly 2) and pad
both dimensions up to the maxima. -/
def pad2dLoopStep (max_rows max_cols : Nat) (t : PTensor) :
    Except String (List (List Int)) :=
  match t with
  | PTensor.r2 xs =>
    Except.ok (fPad2d xs (max_cols - (xs.headD []).length)
      (max_rows - xs.length) ((xs.headD []).length))
  | _ => Except.error "ValueError: cannot unpack tensor shape"

/-- collator.py lines 69 to 97, DataCollatorWithPadding.pad_2d_tensor: the
maxima read shape[0] and shape[1] of every tensor (IndexError when the rank
is below 2), then the loop pads every tensor to the maxima and the results
are stacked along a new batch dimension. -/
def pad_2d_tensor (key_data : List PTensor) : Except String PTensor :=
  if key_data.isEmpty then
    Except.error "ValueError: The input list should not be empty"
  else
    match seqMapE (shapeEntry 0) key_data with
    | Except.error e => Except.error e
    | Except.ok d0s =>
      match seqMapE (shapeEntry 1) key_data with
      | Except.error e => Except.error e
      | Except.ok d1s =>
        match seqMapE (pad2dLoopStep (listMax d0s) (listMax d1s)) key_data with
        | Except.error e => Except.error e
        | Except.ok ts => Except.ok (.r3 ts)

/-- torch.nn.functional.pad on a rank 4 tensor with pad tuple
(0, classPad, 0, seqPad): pad the last axis by classPad zeros and the third
axis by seqPad zero rows; c is the last shape entry of the tensor. -/
def fPadLast2 (xs : List (List (List (List Int)))) (classPad seqPad c : Nat) :
    List (List (List (List Int))) :=
  xs.map (fun a => a.map (fun m =>
    m.map (fun row => row ++ List.replicate classPad 0) ++
      List.replicate seqPad (List.replicate (c + classPad) 0)))

/-- torch.cat along dimension 1 on rank 4 tensors sharing their other
sizes. -/
def catDim1 (ts : List (List (List (List (List Int))))) :
    List (List (List (List Int))) :=
  (List.range (ts.headD []).length).map (fun j =>
    (ts.map (fun t => t.getD j [])).flatten)

/-- The loop body of pad_token_labels, collator.py lines 109 to 118: read
the current sequence length and class count of one tensor (shape[2] and
shape[3], genuine only for rank 4) and pad the last two axes up to the
maxima. -/
def padTokenLoopStep (max_seq_len max_num_classes : Nat) (t : PTensor) :
    Except String (List (List (List (List Int)))) :=
  match t with
  | PTensor.r4 xs =>
    Except.ok (fPadLast2 xs
      (max_num_classes - ((((xs.headD []).headD []).headD []).length))
      (max_seq_len - (((xs.headD []).headD []).length))
      ((((xs.headD []).headD []).headD []).length))
  | _ => Except.error "IndexError: tuple index out of range"

/-- collator.py lines 99 to 123, DataCollatorWithPadding.pad_token_labels:
the maxima read shape[2] and shape[3] of every tensor, raising IndexError
when the rank is below 4; in particular, after the squeeze at line 42 has
turned stored rank 4 labels with a leading size of one into rank 3 tensors,
reading shape[3] raises. On genuine rank 4 input each tensor is padded on
its last two axes to the maxima and the results are concatenated along
dimension 1. -/
def pad_token_labels (key_data : List PTensor) : Except String PTensor :=
  if key_data.isEmpty then
    Except.error "ValueError: The input list should not be empty"
  else
    match seqMapE (shapeEntry 2) key_data with
    | Except.error e => Except.error e
    | Except.ok seqs =>
      match seqMapE (shapeEntry 3) key_data with
      | Except.error e => Except.error e
      | Except.ok clss =>
        match seqMapE (padTokenLoopStep (listMax seqs) (listMax clss)) key_data with
        | Except.error e => Except.error e
        | Except.ok padded => Except.ok (.r4 (catDim1 padded))

/-- The configuration handed to DataCollatorWithPadding; the constructor
default is Python None, modelled by Option. -/
structure CollConfig where
  span_mode : String
deriving DecidableEq

/-- The rank dispatch of DataCollatorWithPadding.__call__ on the squeezed
per example values, collator.py lines 44 to 65. Reading key_data[0] on the
first squeezed value, flat tensors go to pad_sequence, rank 2 tensors to
pad_2d_tensor, and the labels key under token level span mode to
pad_token_labels; any other tensor rank raises TypeError. Reading
span_mode on a None config raises AttributeError; the comparison is
short circuited, so it is only read when the key is labels. -/
def dispatchKey (config : Option CollConfig) (key : String)
    (key_data : List PTensor) : Except String PTensor :=
  match key_data with
  | [] => Except.error "IndexError: list index out of range"
  | t0 :: rest =>
    if t0.dim = 1 then padSeq (t0 :: rest)
    else if t0.dim = 2 then pad_2d_tensor (t0 :: rest)
    else if key = "labels" then
      match config with
      | none => Except.error "AttributeError: NoneType object has no attribute span_mode"
      | some c =>
        if c.span_mode = "token_level" then pad_token_labels (t0 :: rest)
        else Except.error ("TypeError: Unsuported amount of dimension for key " ++ key)
    else Except.error ("TypeError: Unsuported amount of dimension for key " ++ key)

/-- The per key body of DataCollatorWithPadding.__call__, collator.py
lines 40 to 65: build key_data by reading and squeezing the value of every
example (line 42), then dispatch on the rank of the first squeezed
value. -/
def processKey (config : Option CollConfig) (batch : List (List (String × FVal)))
    (key : String) : Except String PTensor :=
  match seqMapE (fun item =>
      match dictGet item key with
      | Except.error e => Except.error e
      | Except.ok v => squeezeVal v) batch with
  | Except.error e => Except.error e
  | Except.ok key_data => dispatchKey config key key_data

/-- collator.py lines 30 to 67, DataCollatorWithPadding.__call__: an empty
batch is rejected outright with ValueError; otherwise the keys of the
first example are processed in order, the first raised exception aborting
the call, and the padded values are returned keyed as in the input. -/
def dataCollatorWithPadding_call (config : Option CollConfig)
    (batch : List (List (String × FVal))) :
    Except String (List (String × PTensor)) :=
  if batch.isEmpty then Except.error "ValueError: Batch cannot be empty"
  else
    seqMapE (fun key =>
      match processKey config batch key with
      | Except.error e => Except.error e
      | Except.ok t => Except.ok (key, t)) ((batch.headD []).map Prod.fst)

lemma seqMapE_congr_ok {α β : Type} (f : α → Except String β) (g : α → β) :
    ∀ l : List α, (∀ a ∈ l, f a = Except.ok (g a)) → seqMapE f l = Except.ok (l.map g)
  | [], _ => rfl
  | a :: t, h => by
    have ha := h a (List.mem_cons_self a t)
    have ht := seqMapE_congr_ok f g t (fun x hx => h x (List.mem_cons_of_mem a hx))
    simp [seqMapE, ha, ht]

lemma seqMapE_map {α β γ : Type} (f : β → Except String γ) (u : α → β) :
    ∀ l : List α, seqMapE f (l.map u) = seqMapE (fun a => f (u a)) l
  | [] => rfl
  | a :: t => by
    simp only [List.map_cons, seqMapE, seqMapE_map f u t]

lemma le_listMax {n : Nat} {ns : List Nat} (h : n ∈ ns) : n ≤ listMax ns := by
  induction ns with
  | nil => cases h
  | cons a t ih =>
    rcases List.mem_cons.mp h with h1 | h2
    · subst h1; exact Nat.le_max_left _ _
    · exact le_trans (ih h2) (Nat.le_max_right _ _)

lemma listMax_const {L : Nat} {ns : List Nat} (hne : ns ≠ []) (h : ∀ n ∈ ns, n = L) :
    listMax ns = L := by
  induction ns with
  | nil => cases hne rfl
  | cons a t ih =>
    have ha : a = L := h a (List.mem_cons_self a t)
    cases t with
    | nil => simp [listMax, ha]
    | cons b u =>
      have ht : listMax (b :: u) = L :=
        ih (by simp) (fun n hn => h n (List.mem_cons_of_mem a hn))
      show max a (listMax (b :: u)) = L
      rw [ha, ht, Nat.max_self]

/-- C1: for every input text, every pair of offset maps produced for it,
and every list of decoded hypotheses whose token indices are within the
bounds of the offset maps, the entity loop of batch_predict_entities emits,
for each hypothesis (s, e, label, score), an entity whose start equals the
start map entry at s, whose end equals the end map entry at e, whose text
equals the slice of the original input text between those two character
offsets, and whose label and score are the hypothesis label and score
unchanged. -/
theorem C1_entity_reconstruction {σ : Type} (text : List Char)
    (sMap eMap : List Nat) (out : List (Nat × Nat × String × σ))
    (hb : ∀ h ∈ out, h.1 < sMap.length ∧ h.2.1 < eMap.length) :
    entityLoop text sMap eMap out = Except.ok (out.map (fun h =>
      { start := sMap.getD h.1 0, «end» := eMap.getD h.2.1 0,
        text := pySlice text (sMap.getD h.1 0) (eMap.getD h.2.1 0),
        label := h.2.2.1, score := h.2.2.2 })) := by
  induction out with
  | nil => rfl
  | cons h t ih =>
    have hb1 := hb h (List.mem_cons_self h t)
    cases hget1 : sMap[h.1]? with
    | none =>
      exact absurd (List.getElem?_eq_none_iff.mp hget1) (Nat.not_le.mpr hb1.1)
    | some s =>
      cases hget2 : eMap[h.2.1]? with
      | none =>
        exact absurd (List.getElem?_eq_none_iff.mp hget2) (Nat.not_le.mpr hb1.2)
      | some en =>
        have hD1 : sMap.getD h.1 0 = s := by
          simp [List.getD_eq_getElem?_getD, hget1]
        have hD2 : eMap.getD h.2.1 0 = en := by
          simp [List.getD_eq_getElem?_getD, hget2]
        have iht := ih (fun x hx => hb x (List.mem_cons_of_mem h hx))
        simp [entityLoop, buildEntity, pyListGet, hget1, hget2, iht, hD1, hD2]

/-- Witness for C1 at a concrete input. -/
theorem C1_entity_reconstruction_witness :
    entityLoop "Hello world".toList [0, 6] [5, 11] [(0, 1, "X", (9 : Int))] =
      Except.ok [{ start := 0, «end» := 11, text := "Hello world".toList,
                   label := "X", score := (9 : Int) }] := by
  have h := C1_entity_reconstruction "Hello world".toList [0, 6] [5, 11]
    [(0, 1, "X", (9 : Int))] (by decide)
  simpa using h

/-- C6: during entity reconstruction, a decoded hypothesis whose start or
end token index is beyond the bounds of the offset maps for that text makes
the whole call raise an IndexError rather than silently clamp or produce
entities. -/
theorem C6_out_of_range_fatal {σ : Type} (text : List Char) (sMap eMap : List Nat)
    (out : List (Nat × Nat × String × σ)) (h : Nat × Nat × String × σ)
    (hmem : h ∈ out) (hob : sMap.length ≤ h.1 ∨ eMap.length ≤ h.2.1) :
    ∃ e, entityLoop text sMap eMap out = Except.error e := by
  induction out with
  | nil => cases hmem
  | cons a t ih =>
    rcases List.mem_cons.mp hmem with rfl | hmem2
    · rcases hob with h1 | h2
      · have hn : sMap[h.1]? = none := List.getElem?_eq_none h1
        exact ⟨"IndexError: list index out of range",
          by simp [entityLoop, buildEntity, pyListGet, hn]⟩
      · cases hget : sMap[h.1]? with
        | none =>
          exact ⟨"IndexError: list index out of range",
            by simp [entityLoop, buildEntity, pyListGet, hget]⟩
        | some s =>
          have hn : eMap[h.2.1]? = none := List.getElem?_eq_none h2
          exact ⟨"IndexError: list index out of range",
            by simp [entityLoop, buildEntity, pyListGet, hget, hn]⟩
    · rcases ih hmem2 with ⟨e, he⟩
      cases hba : buildEntity text sMap eMap a with
      | error e2 => exact ⟨e2, by simp [entityLoop, hba]⟩
      | ok ent => exact ⟨e, by simp [entityLoop, hba, he]⟩

/-- Witness for C6 at a concrete input. -/
theorem C6_out_of_range_fatal_witness :
    ∃ e, entityLoop "hi".toList [0] [2] [(5, 0, "PER", (1 : Int))] =
      Except.error e :=
  C6_out_of_range_fatal "hi".toList [0] [2] [(5, 0, "PER", (1 : Int))]
    (5, 0, "PER", (1 : Int)) (by decide) (by decide)

/-- C7: calling the padding engine on an empty batch raises the batch
empty ValueError, for any configuration, before any padding or shape
inspection, and never returns a dictionary. -/
theorem C7_empty_batch (config : Option CollConfig) :
    dataCollatorWithPadding_call config [] =
      Except.error "ValueError: Batch cannot be empty" := rfl

/-- C2 (code bug evaluation): GLiNER.__init__ leaves the onnx_model flag
True even when the model is not an ORT model, because both branches of the
isinstance test at model.py lines 55 to 58 assign True; consequently the
device moving step of prepare_model_inputs leaves a CPU tensor untouched
although the encoder device is cuda, against the documented behaviour. -/
theorem C2_device_move_never_runs :
    init_onnx_model false = true ∧
    prepare_device_move (init_onnx_model false) "cuda:0"
        [("input_ids", MIVal.tensor "cpu" 0), ("span_idx", MIVal.pynone)] =
      [("input_ids", MIVal.tensor "cpu" 0), ("span_idx", MIVal.pynone)] :=
  ⟨rfl, rfl⟩

/-- C3 (amended): on every batch call the dispatcher merges span_idx,
span_mask and text_lengths into the collated output of the strategy, with
span_idx and span_mask set to Python None when absent from the raw batch;
the three keys are written unconditionally, so a value the collated output
already held for one of them is overwritten (an absent raw batch key
overwrites it with None); every other key keeps the collated value. -/
theorem C3_merge_unconditional {α : Type}
    (collate_raw_batch : List α → String → Option PyV)
    (collate_fn : (String → Option PyV) → String → Option PyV)
    (input_x : List α) (v : PyV)
    (hseq : collate_raw_batch input_x "seq_length" = some v) :
    ∃ out, dataCollator_call collate_raw_batch collate_fn input_x = Except.ok out ∧
      out "span_idx" = some ((collate_raw_batch input_x "span_idx").getD PyV.pynone) ∧
      out "span_mask" = some ((collate_raw_batch input_x "span_mask").getD PyV.pynone) ∧
      out "text_lengths" = some v ∧
      ∀ k, k ≠ "span_idx" → k ≠ "span_mask" → k ≠ "text_lengths" →
        out k = collate_fn (collate_raw_batch input_x) k := by
  refine ⟨fun k =>
      if k = "text_lengths" then some v
      else if k = "span_idx" then
        some ((collate_raw_batch input_x "span_idx").getD PyV.pynone)
      else if k = "span_mask" then
        some ((collate_raw_batch input_x "span_mask").getD PyV.pynone)
      else collate_fn (collate_raw_batch input_x) k, ?_, ?_, ?_, ?_, ?_⟩
  · simp only [dataCollator_call, hseq]
  · simp
  · simp
  · simp
  · intro k h1 h2 h3
    simp [h1, h2, h3]

/-- Witness for C3 amended at concrete strategy functions. -/
theorem C3_merge_unconditional_witness :
    ∃ out, dataCollator_call
        (fun _ : List Unit => fun k =>
          if k = "seq_length" then some (PyV.pyother 3) else none)
        (fun _ k => if k = "input_ids" then some (PyV.pyten 1) else none)
        [] = Except.ok out ∧
      out "span_idx" = some PyV.pynone ∧
      out "text_lengths" = some (PyV.pyother 3) ∧
      out "input_ids" = some (PyV.pyten 1) := by
  obtain ⟨out, h0, h1, _, h3, h4⟩ := C3_merge_unconditional
    (fun _ : List Unit => fun k =>
      if k = "seq_length" then some (PyV.pyother 3) else none)
    (fun _ k => if k = "input_ids" then some (PyV.pyten 1) else none)
    [] (PyV.pyother 3) (by simp)
  refine ⟨out, h0, by simpa using h1, h3, ?_⟩
  have := h4 "input_ids" (by decide) (by decide) (by decide)
  simpa using this

/-- Counterexample to C3 as stated: the collated output of the strategy
already contains span_idx (a tensor), the raw batch does not contain the
key, and the merged output nevertheless holds None for span_idx: the
existing value did not take precedence over the absent key. -/
theorem C3_precedence_counterexample :
    (dataCollator_call
        (fun _ : List Unit => fun k =>
          if k = "seq_length" then some (PyV.pyother 0) else none)
        (fun _ k => if k = "span_idx" then some (PyV.pyten 7) else none)
        []).map (fun out => out "span_idx") = Except.ok (some PyV.pynone) := by
  rfl

/-- C4 (code bug evaluation): a batch whose values for a key are Python
lists of numbers crashes in the squeeze comprehension at collator.py line
42, because a list has no squeeze attribute, instead of being right padded
with zeros into a floating point tensor; the list handling branch below it
is unreachable (and itself reads the never assigned attribute
self.device). -/
theorem C4_list_features_raise :
    dataCollatorWithPadding_call none
        [[("seq_len", FVal.lst [1, 2])], [("seq_len", FVal.lst [3])]] =
      Except.error "AttributeError: list object has no attribute squeeze" := by
  rfl

/-- C5 (code bug evaluation): under token level mode, a batch whose labels
value is a rank 4 tensor of shape [1, 2, 2, 1] is squeezed to rank 3 at
collator.py line 42, and pad_token_labels then raises IndexError reading
shape[3], instead of padding the sequence and class axes and concatenating
along the batch axis. -/
theorem C5_token_labels_raise :
    dataCollatorWithPadding_call (some { span_mode := "token_level" })
        [[("labels", FVal.tens (PTensor.r4 [[[[1], [2]], [[3], [4]]]]))]] =
      Except.error "IndexError: tuple index out of range" := by
  rfl

lemma dictGet_single (k : String) (v : FVal) : dictGet [(k, v)] k = Except.ok v := by
  simp [dictGet]

lemma processKey_map_ok {α : Type} (config : Option CollConfig) (k : String)
    (v : α → FVal) (g : α → PTensor) (l : List α)
    (h : ∀ a ∈ l, squeezeVal (v a) = Except.ok (g a)) :
    processKey config (l.map (fun a => [(k, v a)])) k =
      dispatchKey config k (l.map g) := by
  unfold processKey
  rw [seqMapE_map, seqMapE_congr_ok _ g l (fun a ha => by
    rw [dictGet_single]
    exact h a ha)]

lemma call_single_key (config : Option CollConfig) (k : String)
    (batch : List (List (String × FVal))) (hne : batch ≠ [])
    (hk : (batch.headD []).map Prod.fst = [k]) :
    dataCollatorWithPadding_call config batch =
      match processKey config batch k with
      | Except.error e => Except.error e
      | Except.ok t => Except.ok [(k, t)] := by
  unfold dataCollatorWithPadding_call
  rw [if_neg (by simp [hne]), hk]
  cases hp : processKey config batch k with
  | error e => simp [seqMapE, hp]
  | ok t => simp [seqMapE, hp]

lemma dispatchKey_r1 (config : Option CollConfig) (k : String)
    (r0 : List Int) (rest : List PTensor) :
    dispatchKey config k (PTensor.r1 r0 :: rest) = padSeq (PTensor.r1 r0 :: rest) := by
  simp [dispatchKey, PTensor.dim]

lemma dispatchKey_r2 (config : Option CollConfig) (k : String)
    (m0 : List (List Int)) (rest : List PTensor) :
    dispatchKey config k (PTensor.r2 m0 :: rest) =
      pad_2d_tensor (PTensor.r2 m0 :: rest) := by
  simp [dispatchKey, PTensor.dim]

lemma padSeq_r1 (rows : List (List Int)) :
    padSeq (rows.map PTensor.r1) =
      Except.ok (PTensor.r2 (rows.map (fun r =>
        r ++ List.replicate (listMax (rows.map List.length) - r.length) 0))) := by
  have e : seqMapE padSeqStep (rows.map PTensor.r1) = Except.ok rows := by
    rw [seqMapE_map]
    have h := seqMapE_congr_ok (fun r => padSeqStep (PTensor.r1 r)) id rows
      (fun a _ => rfl)
    simpa using h
  simp only [padSeq, e]

lemma pad_2d_uniform (mats : List (List (List Int))) (R C : Nat) (hne : mats ≠ [])
    (hsh : ∀ m ∈ mats, m.length = R ∧ (m.headD []).length = C) :
    pad_2d_tensor (mats.map PTensor.r2) = Except.ok (PTensor.r3 mats) := by
  have hsh' : ∀ m ∈ mats, m.length = R ∧ (m.head?.getD []).length = C := by
    intro m hm
    simpa using hsh m hm
  have e0 : seqMapE (shapeEntry 0) (mats.map PTensor.r2) =
      Except.ok (mats.map (fun _ => R)) := by
    rw [seqMapE_map]
    exact seqMapE_congr_ok _ _ mats (fun m hm => by
      simp [shapeEntry, PTensor.shape, (hsh' m hm).1])
  have e1 : seqMapE (shapeEntry 1) (mats.map PTensor.r2) =
      Except.ok (mats.map (fun _ => C)) := by
    rw [seqMapE_map]
    exact seqMapE_congr_ok _ _ mats (fun m hm => by
      simp [shapeEntry, PTensor.shape, (hsh' m hm).2])
  have eM0 : listMax (mats.map (fun _ => R)) = R :=
    listMax_const (by simpa using hne) (by simp)
  have eM1 : listMax (mats.map (fun _ => C)) = C :=
    listMax_const (by simpa using hne) (by simp)
  have e2 : seqMapE (pad2dLoopStep R C) (mats.map PTensor.r2) = Except.ok mats := by
    rw [seqMapE_map]
    have h := seqMapE_congr_ok (fun m => pad2dLoopStep R C (PTensor.r2 m)) id mats
      (fun m hm => by
        simp [pad2dLoopStep, fPad2d, (hsh' m hm).1, (hsh' m hm).2])
    simpa using h
  have hie : (mats.map PTensor.r2).isEmpty = false := by
    simp [List.isEmpty_eq_false, hne]
  simp only [pad_2d_tensor, hie, Bool.false_eq_true, if_false, e0, e1, eM0, eM1, e2]

lemma call_r1_padded (config : Option CollConfig) (k : String)
    (rows : List (List Int)) (hne : rows ≠ [])
    (h1 : ∀ r ∈ rows, r.length ≠ 1) :
    dataCollatorWithPadding_call config
        (rows.map (fun r => [(k, FVal.tens (PTensor.r1 r))])) =
      Except.ok [(k, PTensor.r2 (rows.map (fun r =>
        r ++ List.replicate (listMax (rows.map List.length) - r.length) 0)))] := by
  have hb : rows.map (fun r => [(k, FVal.tens (PTensor.r1 r))]) ≠ [] := by
    simpa using hne
  have hk : ((rows.map (fun r => [(k, FVal.tens (PTensor.r1 r))])).headD []).map
      Prod.fst = [k] := by
    cases rows with
    | nil => cases hne rfl
    | cons r rs => simp
  have hp : processKey config
      (rows.map (fun r => [(k, FVal.tens (PTensor.r1 r))])) k =
      Except.ok (PTensor.r2 (rows.map (fun r =>
        r ++ List.replicate (listMax (rows.map List.length) - r.length) 0))) := by
    rw [processKey_map_ok config k _ PTensor.r1 rows (fun r hr => by
      simp [squeezeVal, squeeze0, h1 r hr])]
    cases rows with
    | nil => cases hne rfl
    | cons r rs =>
      rw [List.map_cons, dispatchKey_r1, ← List.map_cons, padSeq_r1]
  rw [call_single_key config k _ hb hk, hp]

/-- C8 (amended): for every nonempty batch whose values for a key are rank
1 tensors, none of which has length exactly one (the squeeze at collator.py
line 42 strips a length one tensor to rank 0 and the call then raises
TypeError), the output for that key stacks the rows padded on the right
with zeros to the batch wide maximum length: the first entries of each
output row equal the original row exactly, zeros follow, and every output
row has length equal to the batch wide maximum input length. -/
theorem C8_rank1_padding (config : Option CollConfig) (k : String)
    (rows : List (List Int)) (hne : rows ≠ [])
    (h1 : ∀ r ∈ rows, r.length ≠ 1) :
    dataCollatorWithPadding_call config
        (rows.map (fun r => [(k, FVal.tens (PTensor.r1 r))])) =
      Except.ok [(k, PTensor.r2 (rows.map (fun r =>
        r ++ List.replicate (listMax (rows.map List.length) - r.length) 0)))] ∧
    ∀ r ∈ rows,
      (r ++ List.replicate (listMax (rows.map List.length) - r.length) 0).length =
        listMax (rows.map List.length) := by
  refine ⟨call_r1_padded config k rows hne h1, ?_⟩
  intro r hr
  have hle : r.length ≤ listMax (rows.map List.length) :=
    le_listMax (List.mem_map_of_mem List.length hr)
  rw [List.length_append, List.length_replicate, Nat.add_sub_cancel' hle]

/-- Witness for C8 amended at a concrete batch. -/
theorem C8_rank1_padding_witness :
    dataCollatorWithPadding_call none
        [[("input_ids", FVal.tens (PTensor.r1 [1, 2]))],
         [("input_ids", FVal.tens (PTensor.r1 [3, 4, 5]))]] =
      Except.ok [("input_ids", PTensor.r2 [[1, 2, 0], [3, 4, 5]])] := by
  have h := (C8_rank1_padding none "input_ids" [[1, 2], [3, 4, 5]]
    (by decide) (by decide)).1
  exact h.trans (by rfl)

/-- Counterexample to C8 as stated: a batch whose value for the key is a
rank 1 tensor of length one is squeezed to rank 0 at collator.py line 42
and the call raises TypeError instead of returning a padded row. -/
theorem C8_rank1_counterexample :
    dataCollatorWithPadding_call none
        [[("input_ids", FVal.tens (PTensor.r1 [7]))]] =
      Except.error "TypeError: Unsuported amount of dimension for key input_ids" := by
  rfl

/-- C9 (amended): padding a nonempty batch of already equal shape tensors
for a key is a no-op, the output being the inputs stacked along a new
leading batch axis, provided the squeeze at collator.py line 42 does not
alter the tensors: for rank 1 tensors of common length L with L not one,
and for rank 2 tensors of common shape [R, C] with R not one. (A uniform
batch whose tensors have leading size one is squeezed first, so the stored
tensors are not what gets stacked, and a uniform batch of shape [1] rank 1
tensors raises TypeError.) -/
theorem C9_uniform_noop (config : Option CollConfig) (k : String) :
    (∀ (rows : List (List Int)) (L : Nat), rows ≠ [] → L ≠ 1 →
      (∀ r ∈ rows, (PTensor.r1 r).shape = [L]) →
      dataCollatorWithPadding_call config
          (rows.map (fun r => [(k, FVal.tens (PTensor.r1 r))])) =
        Except.ok [(k, PTensor.r2 rows)]) ∧
    (∀ (mats : List (List (List Int))) (R C : Nat), mats ≠ [] → R ≠ 1 →
      (∀ m ∈ mats, (PTensor.r2 m).shape = [R, C]) →
      dataCollatorWithPadding_call config
          (mats.map (fun m => [(k, FVal.tens (PTensor.r2 m))])) =
        Except.ok [(k, PTensor.r3 mats)]) := by
  constructor
  · intro rows L hne hL hsh
    have hlen : ∀ r ∈ rows, r.length = L := fun r hr => by
      have h := hsh r hr
      simpa [PTensor.shape] using h
    have h1 : ∀ r ∈ rows, r.length ≠ 1 := fun r hr => by
      rw [hlen r hr]; exact hL
    have hM : listMax (rows.map List.length) = L :=
      listMax_const (by simpa using hne) (by
        intro n hn
        rcases List.mem_map.mp hn with ⟨r, hr, rfl⟩
        exact hlen r hr)
    rw [call_r1_padded config k rows hne h1]
    have hmap : rows.map (fun r =>
        r ++ List.replicate (listMax (rows.map List.length) - r.length) 0) = rows := by
      have h := List.map_congr_left (l := rows)
        (f := fun r => r ++ List.replicate (listMax (rows.map List.length) - r.length) 0)
        (g := id) (fun r hr => by simp [hM, hlen r hr])
      simpa using h
    rw [hmap]
  · intro mats R C hne hR hsh
    have hsh2 : ∀ m ∈ mats, m.length = R ∧ (m.headD []).length = C := fun m hm => by
      have h := hsh m hm
      simp only [PTensor.shape, List.cons.injEq, and_true] at h
      exact ⟨h.1, h.2⟩
    have hsq : ∀ m ∈ mats,
        squeezeVal (FVal.tens (PTensor.r2 m)) = Except.ok (PTensor.r2 m) := fun m hm => by
      simp [squeezeVal, squeeze0, (hsh2 m hm).1, hR]
    have hb : mats.map (fun m => [(k, FVal.tens (PTensor.r2 m))]) ≠ [] := by
      simpa using hne
    have hk : ((mats.map (fun m => [(k, FVal.tens (PTensor.r2 m))])).headD []).map
        Prod.fst = [k] := by
      cases mats with
      | nil => cases hne rfl
      | cons m ms => simp
    rw [call_single_key config k _ hb hk,
      processKey_map_ok config k _ PTensor.r2 mats hsq]
    cases mats with
    | nil => cases hne rfl
    | cons m ms =>
      rw [List.map_cons, dispatchKey_r2, ← List.map_cons,
        pad_2d_uniform (m :: ms) R C (by simp) hsh2]

/-- Witness for C9 amended at concrete uniform batches of both ranks. -/
theorem C9_uniform_noop_witness :
    dataCollatorWithPadding_call none
        [[("a", FVal.tens (PTensor.r1 [1, 2]))],
         [("a", FVal.tens (PTensor.r1 [3, 4]))]] =
      Except.ok [("a", PTensor.r2 [[1, 2], [3, 4]])] ∧
    dataCollatorWithPadding_call none
        [[("b", FVal.tens (PTensor.r2 [[1], [2]]))],
         [("b", FVal.tens (PTensor.r2 [[3], [4]]))]] =
      Except.ok [("b", PTensor.r3 [[[1], [2]], [[3], [4]]])] := by
  constructor
  · have h := (C9_uniform_noop none "a").1 [[1, 2], [3, 4]] 2
      (by decide) (by decide) (by decide)
    exact h
  · have h := (C9_uniform_noop none "b").2 [[[1], [2]], [[3], [4]]] 2 1
      (by decide) (by decide) (by decide)
    exact h

/-- Counterexample to C9 as stated: a batch of two rank 1 tensors that
already share the same shape [1] raises TypeError instead of returning the
stacked input, because each is squeezed to rank 0 first. -/
theorem C9_uniform_counterexample :
    dataCollatorWithPadding_call none
        [[("a", FVal.tens (PTensor.r1 [7]))], [("a", FVal.tens (PTensor.r1 [8]))]] =
      Except.error "TypeError: Unsuported amount of dimension for key a" := by
  rfl

/-- C10 (amended): the engine applies squeeze(0) to every per example
value before any rank dispatch, so a batch of shape [1, n] tensors with n
not one is padded and stacked exactly as the batch of the corresponding
shape [n] tensors, and the rank used for dispatch is the rank after the
squeeze. (For n equal to one the two differ: the shape [n] batch is
squeezed again, down to rank 0.) -/
theorem C10_squeeze_dispatch (config : Option CollConfig) (k : String)
    (rows : List (List Int)) (h1 : ∀ r ∈ rows, r.length ≠ 1) :
    dataCollatorWithPadding_call config
        (rows.map (fun r => [(k, FVal.tens (PTensor.r2 [r]))])) =
      dataCollatorWithPadding_call config
        (rows.map (fun r => [(k, FVal.tens (PTensor.r1 r))])) := by
  cases rows with
  | nil => rfl
  | cons r rs =>
    have hsqA : ∀ x ∈ r :: rs,
        squeezeVal (FVal.tens (PTensor.r2 [x])) = Except.ok (PTensor.r1 x) :=
      fun x _ => by simp [squeezeVal, squeeze0]
    have hsqB : ∀ x ∈ r :: rs,
        squeezeVal (FVal.tens (PTensor.r1 x)) = Except.ok (PTensor.r1 x) :=
      fun x hx => by simp [squeezeVal, squeeze0, h1 x hx]
    rw [call_single_key config k _ (by simp) (by simp),
      call_single_key config k _ (by simp) (by simp),
      processKey_map_ok config k _ PTensor.r1 (r :: rs) hsqA,
      processKey_map_ok config k _ PTensor.r1 (r :: rs) hsqB]

/-- Witness for C10 amended at a concrete batch. -/
theorem C10_squeeze_dispatch_witness :
    dataCollatorWithPadding_call none
        [[("a", FVal.tens (PTensor.r2 [[1, 2]]))]] =
      dataCollatorWithPadding_call none
        [[("a", FVal.tens (PTensor.r1 [1, 2]))]] := by
  have h := C10_squeeze_dispatch none "a" [[1, 2]] (by decide)
  exact h

/-- Counterexample to C10 as stated: for n equal to one, a batch of one
shape [1, 1] tensor is padded into a tensor, while the batch of the
corresponding shape [1] tensor raises TypeError, because the latter is
squeezed to rank 0 before dispatch. -/
theorem C10_squeeze_counterexample :
    dataCollatorWithPadding_call none [[("a", FVal.tens (PTensor.r2 [[5]]))]] =
      Except.ok [("a", PTensor.r2 [[5]])] ∧
    dataCollatorWithPadding_call none [[("a", FVal.tens (PTensor.r1 [5]))]] =
      Except.error "TypeError: Unsuported amount of dimension for key a" :=
  ⟨rfl, rfl⟩

end GLiNERSpec
